import Mathlib

/-!
Verification of the watcher examples in the tauri-demo repository.

The development shallowly embeds the state-watching cores of four source
files:

* `examples/clipboard-listener/src-tauri/src/main.rs` — a clipboard polling
  loop with a shared `running` flag (`listen_to_clipboard`,
  `stop_clipboard_listener`);
* `examples/events/src-tauri/src/main.rs` — the same polling loop without a
  stop flag;
* `examples/key-displayer/src-tauri/src/lib.rs` — a global input hook that
  maintains a pressed-key set and rate-limits mouse-move events
  (`run_input_monitoring`, `start_monitoring`, `stop_monitoring`);
* `examples/text-selection/src-tauri/src/input_monitor.rs` — the
  `SelectionState` toggling commands (`toggle_enabled`,
  `get_enabled_status`).

Modelling conventions: a fallible Rust call is an `Option`/`Except` value
supplied per tick; a `.unwrap()` on a failed value is modelled as the
`panicked` outcome of the enclosing loop; an infinite `loop` is run on a
finite schedule of tick inputs, `stillRunning` meaning the schedule was
exhausted with the loop still alive.  `f64` coordinates are carried opaquely
as `Int` (no arithmetic on them is modelled).  `HashSet<String>` is modelled
as `Finset String` (iteration order of the emitted snapshot is abstracted
away).
-/

namespace TauriDemo

/-- How a finite run of the clipboard polling loop ended: the tick schedule
was exhausted with the loop still alive, the loop returned after observing
`running = false`, or a `.unwrap()` panicked the loop thread. -/
inductive Outcome where
  | stillRunning
  | stopped
  | panicked
deriving DecidableEq, Repr

/-- The external inputs consumed by one iteration of the clipboard loop in
`listen_to_clipboard`: the result of `clipboard.get_text()` (`none` = `Err`),
the value of the shared `running` flag observed at this tick, and whether
`window.emit("clipboard-update", ..)` would return `Ok`. -/
structure ClipTick where
  sample : Option String
  running : Bool
  sinkOk : Bool
deriving DecidableEq, Repr

/-- The body of the `std::thread::spawn(move || loop { .. })` in
`listen_to_clipboard` (clipboard-listener `main.rs`, lines 29–43), run on a
finite tick schedule.  `pre_text` is the current content of the shared
`content` mutex.  Per iteration, in source order: `get_text().unwrap()`
(panics on `Err`), then the `running` check (return when false), then the
inequality test, updating `pre_text` and calling
`window.emit(..).unwrap()` (panics on `Err`) on a change.  The first
component records, tick by tick, the `clipboard-update` emission of that
tick (`none` = silent tick). -/
def clipboardLoop : String → List ClipTick → List (Option String) × Outcome
  | _, [] => ([], Outcome.stillRunning)
  | pre_text, t :: rest =>
    match t.sample with
    | none => ([], Outcome.panicked)
    | some cur_text =>
      if t.running = false then
        ([], Outcome.stopped)
      else if cur_text ≠ pre_text then
        if t.sinkOk then
          let r := clipboardLoop cur_text rest
          (some cur_text :: r.1, r.2)
        else ([], Outcome.panicked)
      else
        let r := clipboardLoop pre_text rest
        (none :: r.1, r.2)

/-- The whole of `listen_to_clipboard` as far as `clipboard-update` events
are concerned: the command first captures an initial sample via
`get_text().unwrap()` (panicking on `Err`) without emitting, then the
spawned loop runs with that sample as the initial `content`. -/
def clipboardSession (initSample : Option String) (ticks : List ClipTick) :
    List (Option String) × Outcome :=
  match initSample with
  | none => ([], Outcome.panicked)
  | some content => clipboardLoop content ticks

/-- The managed `ClipboardListenerState`, extended with a count of the live
polling-loop threads spawned against the clipboard (each call of
`listen_to_clipboard` spawns one). -/
structure ClipboardListenerState where
  clipboard_listener_running : Bool
  loopThreads : Nat
deriving DecidableEq, Repr

/-- The state effect of the `listen_to_clipboard` command
(clipboard-listener `main.rs`, lines 12–44): it sets the shared flag to
`true` and unconditionally spawns a new polling thread — there is no check
whether a listener is already running. -/
def listen_to_clipboard (s : ClipboardListenerState) : ClipboardListenerState :=
  { clipboard_listener_running := true, loopThreads := s.loopThreads + 1 }

/-- The state effect of the `stop_clipboard_listener` command: it sets the
shared flag to `false`. -/
def stop_clipboard_listener (s : ClipboardListenerState) : ClipboardListenerState :=
  { s with clipboard_listener_running := false }

/-- The `monio::Key` values distinguished by `get_key_name` in the
key-displayer `lib.rs`.  The catch-all `_` arm of the source formats the key
with `Debug`; `other dbg` carries that `Debug` string. -/
inductive MKey where
  | KeyA | KeyB | KeyC | KeyD | KeyE | KeyF | KeyG | KeyH | KeyI | KeyJ
  | KeyK | KeyL | KeyM | KeyN | KeyO | KeyP | KeyQ | KeyR | KeyS | KeyT
  | KeyU | KeyV | KeyW | KeyX | KeyY | KeyZ
  | Escape | Backspace | Tab | Enter
  | ShiftLeft | ShiftRight | ControlLeft | ControlRight
  | AltLeft | AltRight | MetaLeft | MetaRight
  | Space | ArrowUp | ArrowDown | ArrowLeft | ArrowRight
  | CapsLock | Delete | Insert | Home | End | PageUp | PageDown
  | F1 | F2 | F3 | F4 | F5 | F6 | F7 | F8 | F9 | F10 | F11 | F12
  | other (dbg : String)

/-- `get_key_name` (key-displayer `lib.rs`, lines 31–108): localize a
`monio::Key` to the display name inserted into the pressed-key set.  The
fallback arm strips a leading `Key`/`Digit` from the `Debug` rendering. -/
def get_key_name : MKey → String
  | MKey.KeyA => "A"
  | MKey.KeyB => "B"
  | MKey.KeyC => "C"
  | MKey.KeyD => "D"
  | MKey.KeyE => "E"
  | MKey.KeyF => "F"
  | MKey.KeyG => "G"
  | MKey.KeyH => "H"
  | MKey.KeyI => "I"
  | MKey.KeyJ => "J"
  | MKey.KeyK => "K"
  | MKey.KeyL => "L"
  | MKey.KeyM => "M"
  | MKey.KeyN => "N"
  | MKey.KeyO => "O"
  | MKey.KeyP => "P"
  | MKey.KeyQ => "Q"
  | MKey.KeyR => "R"
  | MKey.KeyS => "S"
  | MKey.KeyT => "T"
  | MKey.KeyU => "U"
  | MKey.KeyV => "V"
  | MKey.KeyW => "W"
  | MKey.KeyX => "X"
  | MKey.KeyY => "Y"
  | MKey.KeyZ => "Z"
  | MKey.Escape => "Esc"
  | MKey.Backspace => "⌫"
  | MKey.Tab => "Tab"
  | MKey.Enter => "↵"
  | MKey.ShiftLeft | MKey.ShiftRight => "Shift"
  | MKey.ControlLeft | MKey.ControlRight => "Ctrl"
  | MKey.AltLeft | MKey.AltRight => "Alt"
  | MKey.MetaLeft | MKey.MetaRight => "⌘"
  | MKey.Space => "Space"
  | MKey.ArrowUp => "↑"
  | MKey.ArrowDown => "↓"
  | MKey.ArrowLeft => "←"
  | MKey.ArrowRight => "→"
  | MKey.CapsLock => "Caps"
  | MKey.Delete => "Del"
  | MKey.Insert => "Ins"
  | MKey.Home => "Home"
  | MKey.End => "End"
  | MKey.PageUp => "PgUp"
  | MKey.PageDown => "PgDn"
  | MKey.F1 => "F1"
  | MKey.F2 => "F2"
  | MKey.F3 => "F3"
  | MKey.F4 => "F4"
  | MKey.F5 => "F5"
  | MKey.F6 => "F6"
  | MKey.F7 => "F7"
  | MKey.F8 => "F8"
  | MKey.F9 => "F9"
  | MKey.F10 => "F10"
  | MKey.F11 => "F11"
  | MKey.F12 => "F12"
  | MKey.other dbg =>
    if dbg.startsWith "Key" then dbg.drop 3
    else if dbg.startsWith "Digit" then dbg.drop 5
    else dbg

/-- The `monio::Button` variants distinguished by the source; `Other`
stands for every variant hit by its `_ => None` arms. -/
inductive MButton where
  | Left | Middle | Right | Other

/-- The `mouse.button.and_then(..).unwrap_or("Mouse")` computation of the
display name in the `MousePressed`/`MouseReleased` arms. -/
def buttonName (b : Option MButton) : String :=
  (b.bind fun x =>
    match x with
    | MButton.Left => some "MouseL"
    | MButton.Middle => some "MouseM"
    | MButton.Right => some "MouseR"
    | MButton.Other => none).getD "Mouse"

/-- The `mouse.button.map(..)` numeric code placed in the `button` field of
the emitted event. -/
def buttonCode (b : Option MButton) : Option Nat :=
  b.map fun x =>
    match x with
    | MButton.Left => 1
    | MButton.Middle => 2
    | MButton.Right => 3
    | MButton.Other => 0

/-- A raw `monio` event as delivered to the `listen` callback, carrying the
payload the library fills for its event type, plus the wall-clock timestamp
(in ms) the callback computes on entry.  Coordinates are opaque.
`OtherEvent` covers the event types ignored by the `_ => {}` arm. -/
inductive RawEvent where
  | KeyPressed (key : MKey) (timestamp : Nat)
  | KeyReleased (key : MKey) (timestamp : Nat)
  | MousePressed (button : Option MButton) (x y : Int) (timestamp : Nat)
  | MouseReleased (button : Option MButton) (x y : Int) (timestamp : Nat)
  | MouseMoved (x y : Int) (timestamp : Nat)
  | MouseDragged (x y : Int) (timestamp : Nat)
  | OtherEvent (timestamp : Nat)

/-- The `KeyEvent` payload emitted on the `keycastr-event` channel.  The
`keys` snapshot is the pressed-key set after the mutation of this callback
(the source collects the `HashSet` into a `Vec`; order is abstracted). -/
structure KeyEvent where
  event_type : String
  key : Option String
  keys : Finset String
  button : Option Nat
  x : Option Int
  y : Option Int
  timestamp : Nat

/-- The mutable state the `listen` callback of `run_input_monitoring`
works on: the shared `pressed_keys` set and the `last_mouse_move`
timestamp (an `AtomicU64` starting at 0). -/
structure MonState where
  pressed_keys : Finset String
  last_mouse_move : Nat

/-- One invocation of the `listen` callback in `run_input_monitoring`
(key-displayer `lib.rs`, lines 122–260).  `is_monitoring` is the value of
the shared flag observed at the top of the callback; when false the
callback returns at once.  `sinkOk` is whether `app_handle.emit` would
succeed: the source only logs (`if let Err`) or drops (`let _ =`) that
result, so it influences nothing.  Mouse-move and drag events are dropped
when `timestamp.saturating_sub(last_mouse_move) < 50`. -/
def keyStep (is_monitoring : Bool) (s : MonState) (e : RawEvent) (sinkOk : Bool) :
    MonState × Option KeyEvent :=
  if is_monitoring = false then (s, none)
  else
    match e with
    | RawEvent.KeyPressed k ts =>
      let key_name := get_key_name k
      let pressed := insert key_name s.pressed_keys
      ({ s with pressed_keys := pressed },
        some ⟨"keydown", some key_name, pressed, none, none, none, ts⟩)
    | RawEvent.KeyReleased k ts =>
      let key_name := get_key_name k
      let pressed := s.pressed_keys.erase key_name
      ({ s with pressed_keys := pressed },
        some ⟨"keyup", some key_name, pressed, none, none, none, ts⟩)
    | RawEvent.MousePressed b x y ts =>
      let btn_name := buttonName b
      let pressed := insert btn_name s.pressed_keys
      ({ s with pressed_keys := pressed },
        some ⟨"mousedown", some btn_name, pressed, buttonCode b, some x, some y, ts⟩)
    | RawEvent.MouseReleased b x y ts =>
      let btn_name := buttonName b
      let pressed := s.pressed_keys.erase btn_name
      ({ s with pressed_keys := pressed },
        some ⟨"mouseup", some btn_name, pressed, buttonCode b, some x, some y, ts⟩)
    | RawEvent.MouseMoved x y ts =>
      if ts - s.last_mouse_move < 50 then (s, none)
      else
        ({ s with last_mouse_move := ts },
          some ⟨"mousemove", none, s.pressed_keys, none, some x, some y, ts⟩)
    | RawEvent.MouseDragged x y ts =>
      if ts - s.last_mouse_move < 50 then (s, none)
      else
        ({ s with last_mouse_move := ts },
          some ⟨"mousemove", none, s.pressed_keys, none, some x, some y, ts⟩)
    | RawEvent.OtherEvent _ => (s, none)

/-- Run the callback over a finite stream of raw events with the
monitoring flag held constant and the sink succeeding, collecting the
emitted `keycastr-event` payloads in order. -/
def runMonitor (is_monitoring : Bool) : MonState → List RawEvent → MonState × List KeyEvent
  | s, [] => (s, [])
  | s, e :: rest =>
    let r := keyStep is_monitoring s e true
    let r2 := runMonitor is_monitoring r.1 rest
    (r2.1, r.2.toList ++ r2.2)

/-- Whether a raw event is a discrete (press/release) event. -/
def isDiscrete : RawEvent → Bool
  | RawEvent.KeyPressed _ _ | RawEvent.KeyReleased _ _
  | RawEvent.MousePressed _ _ _ _ | RawEvent.MouseReleased _ _ _ _ => true
  | _ => false

/-- Whether a raw event is a continuous (movement/drag) event. -/
def isContinuous : RawEvent → Bool
  | RawEvent.MouseMoved _ _ _ | RawEvent.MouseDragged _ _ _ => true
  | _ => false

/-- The timestamp carried by a raw event. -/
def eventTimestamp : RawEvent → Nat
  | RawEvent.KeyPressed _ ts => ts
  | RawEvent.KeyReleased _ ts => ts
  | RawEvent.MousePressed _ _ _ ts => ts
  | RawEvent.MouseReleased _ _ _ ts => ts
  | RawEvent.MouseMoved _ _ ts => ts
  | RawEvent.MouseDragged _ _ ts => ts
  | RawEvent.OtherEvent ts => ts

/-- The key-displayer `AppState` shared between the command handlers and
the monitoring thread. -/
structure AppState where
  pressed_keys : Finset String
  is_monitoring : Bool

/-- The setup portion of `run_input_monitoring` (key-displayer `lib.rs`,
lines 110–265): it stores `true` into `is_monitoring`, then calls
`monio::listen`; a registration error `e` is mapped to
`"Input hook error: " ++ e` and returned, otherwise the call blocks and
eventually returns `Ok`.  `hookErr` is the registration outcome of
`listen`. -/
def run_input_monitoring (st : AppState) (hookErr : Option String) :
    AppState × Except String Unit :=
  let st2 : AppState := { st with is_monitoring := true }
  match hookErr with
  | some e => (st2, Except.error ("Input hook error: " ++ e))
  | none => (st2, Except.ok ())

/-- What the `start_monitoring` command produces: the value returned
synchronously to the invoking caller, whether a monitoring thread was
spawned, the shared state after the spawned thread ran its setup, and the
result `run_input_monitoring` produced inside the thread (the thread only
`eprintln!`s it). -/
structure StartResult where
  ret : Except String Unit
  spawned : Bool
  state : AppState
  threadResult : Option (Except String Unit)

/-- The `start_monitoring` command (key-displayer `lib.rs`, lines
267–285): if the flag is already set it returns `Ok` without spawning;
otherwise it spawns a thread running `run_input_monitoring` and returns
`Ok` immediately — the hook-registration outcome never reaches the
caller. -/
def start_monitoring (st : AppState) (hookErr : Option String) : StartResult :=
  if st.is_monitoring then ⟨Except.ok (), false, st, none⟩
  else
    let r := run_input_monitoring st hookErr
    ⟨Except.ok (), true, r.1, some r.2⟩

/-- The `stop_monitoring` command: it stores `false` into the flag and
returns `Ok`. -/
def stop_monitoring (st : AppState) : AppState × Except String Unit :=
  ({ st with is_monitoring := false }, Except.ok ())

/-- The `SelectionState` of the text-selection example
(`input_monitor.rs`, lines 9–27); the `f64` drag-start coordinates are
carried opaquely. -/
structure SelectionState where
  is_dragging : Bool
  drag_start_x : Int
  drag_start_y : Int
  is_enabled : Bool
  last_selected_text : String

/-- `SelectionState::new`. -/
def SelectionState.new : SelectionState :=
  { is_dragging := false
    drag_start_x := 0
    drag_start_y := 0
    is_enabled := true
    last_selected_text := "" }

/-- The `toggle_enabled` command (`input_monitor.rs`, lines 232–237): it
negates `is_enabled` in place and returns the new value. -/
def toggle_enabled (s : SelectionState) : SelectionState × Bool :=
  let s2 : SelectionState := { s with is_enabled := !s.is_enabled }
  (s2, s2.is_enabled)

/-- The `get_enabled_status` command (`input_monitor.rs`, lines 239–243). -/
def get_enabled_status (s : SelectionState) : Bool :=
  s.is_enabled

/-- Claim C1, counterexample.  The claim says a failed sample is skipped
and the loop continues, a later changed value emitting exactly one event;
on the code, with initial value `"A"` and tick samples
`[Err, Ok "B"]`, the loop would then still be running having emitted
exactly the `"B"` event — but `clipboardLoop` panics at the failed tick
and emits nothing. -/
theorem C1_counterexample :
    clipboardLoop "A" [⟨none, true, true⟩, ⟨some "B", true, true⟩]
        = ([], Outcome.panicked)
    ∧ clipboardLoop "A" [⟨none, true, true⟩, ⟨some "B", true, true⟩]
        ≠ ([none, some "B"], Outcome.stillRunning) := by
  exact ⟨rfl, by decide⟩

/-- Claim C1, amended: a tick whose clipboard read fails panics the loop
thread via `get_text().unwrap()` — the loop terminates at that tick (even
emitting nothing for later changed samples), rather than skipping the
tick and continuing.  Concretely, initial `"A"` with samples
`[Ok "A", Err, Ok "B"]` ends panicked with no emission at all. -/
theorem C1_failed_sample_panics_loop :
    (∀ (pre_text : String) (r f : Bool) (rest : List ClipTick),
        clipboardLoop pre_text (⟨none, r, f⟩ :: rest) = ([], Outcome.panicked))
    ∧ clipboardLoop "A"
        [⟨some "A", true, true⟩, ⟨none, true, true⟩, ⟨some "B", true, true⟩]
        = ([none], Outcome.panicked) := by
  exact ⟨fun _ _ _ _ => rfl, rfl⟩

/-- Claim C2: the clipboard-listener `listen_to_clipboard` command never
checks whether a listener is already running — invoking it twice from the
initial state leaves two polling-loop threads live against the same
clipboard, violating the one-session-per-source invariant; the
key-displayer `start_monitoring`, by contrast, is a no-op while its flag
is set. -/
theorem C2_double_start_spawns_second_loop :
    (listen_to_clipboard (listen_to_clipboard ⟨false, 0⟩)).loopThreads = 2
    ∧ (listen_to_clipboard (listen_to_clipboard ⟨false, 0⟩)).clipboard_listener_running
        = true
    ∧ (start_monitoring ⟨∅, true⟩ none).spawned = false := by
  exact ⟨rfl, rfl, rfl⟩

/-- Claim C3, counterexample.  The claim says a sink failure is absorbed
and the loop keeps sampling; on the code, a failed
`window.emit(..).unwrap()` at an emitting tick panics the loop — with
initial `"A"` and ticks `[Ok "B" (sink fails), Ok "C"]` the run ends
panicked instead of still running. -/
theorem C3_counterexample :
    clipboardLoop "A" [⟨some "B", true, false⟩, ⟨some "C", true, true⟩]
        = ([], Outcome.panicked)
    ∧ (clipboardLoop "A" [⟨some "B", true, false⟩, ⟨some "C", true, true⟩]).2
        ≠ Outcome.stillRunning := by
  exact ⟨rfl, by decide⟩

/-- Claim C3, amended: the key-displayer hook callback ignores the sink
outcome entirely (it only logs it), so its state transition and emission
are independent of the sink result; the clipboard loop instead panics
when the sink fails on an emitting tick. -/
theorem C3_sink_failure_behavior :
    (∀ (m : Bool) (s : MonState) (e : RawEvent) (ok : Bool),
        keyStep m s e ok = keyStep m s e true)
    ∧ (∀ (pre_text cur : String) (rest : List ClipTick), cur ≠ pre_text →
        clipboardLoop pre_text (⟨some cur, true, false⟩ :: rest)
          = ([], Outcome.panicked)) := by
  refine ⟨fun _ _ _ _ => rfl, fun pre_text cur rest h => ?_⟩
  simp [clipboardLoop, h]

/-- Witness for the amended C3 theorem at `pre_text = "A"`, `cur = "B"`. -/
theorem C3_sink_failure_behavior_witness :
    ("B" : String) ≠ "A"
    ∧ clipboardLoop "A" [⟨some "B", true, false⟩] = ([], Outcome.panicked) :=
  ⟨by decide, C3_sink_failure_behavior.2 "A" "B" [] (by decide)⟩

/-- Claim C4, counterexample.  The claim says the emitted event carries
`previous` (the earlier value) as well as `current`; the code emits only
the current text, so two runs whose previous values differ (`"A"` vs
`"X"`) produce identical emissions for the same new sample `"B"`. -/
theorem C4_counterexample :
    (clipboardLoop "A" [⟨some "B", true, true⟩]).1
        = (clipboardLoop "X" [⟨some "B", true, true⟩]).1
    ∧ ("A" : String) ≠ "X" := by
  exact ⟨rfl, by decide⟩

/-- Claim C4, amended: consecutive distinct samples produce exactly one
emission carrying the current (later) value only, and the spec scenario
(initial sample `"A"`, loop samples `["A","B","B","C"]`) emits exactly at
ticks 2 and 4 — `"B"` and `"C"` — with ticks 1 and 3 silent. -/
theorem C4_change_detection :
    (∀ (pre_text cur : String) (rest : List ClipTick), cur ≠ pre_text →
        clipboardLoop pre_text (⟨some cur, true, true⟩ :: rest)
          = (some cur :: (clipboardLoop cur rest).1, (clipboardLoop cur rest).2))
    ∧ clipboardLoop "A"
        [⟨some "A", true, true⟩, ⟨some "B", true, true⟩,
         ⟨some "B", true, true⟩, ⟨some "C", true, true⟩]
        = ([none, some "B", none, some "C"], Outcome.stillRunning) := by
  refine ⟨fun pre_text cur rest h => ?_, rfl⟩
  simp [clipboardLoop, h]

/-- Witness for the amended C4 theorem at `pre_text = "A"`, `cur = "B"`. -/
theorem C4_change_detection_witness :
    ("B" : String) ≠ "A"
    ∧ clipboardLoop "A" [⟨some "B", true, true⟩]
        = (some "B" :: (clipboardLoop "B" []).1, (clipboardLoop "B" []).2) :=
  ⟨by decide, C4_change_detection.1 "A" "B" [] (by decide)⟩

/-- Claim C5: once the `running` flag reads false, the clipboard loop
returns at that very tick (within one poll interval) and the emissions of
the whole run are exactly those of the clean prefix — injecting arbitrary
further ticks after the stop adds no emission; likewise the key-displayer
callback with `is_monitoring = false` emits nothing and leaves the state
untouched. -/
theorem C5_stop_halts_loop :
    (∀ (pre_text s : String) (ticks rest : List ClipTick),
        (∀ t ∈ ticks, t.running = true ∧ t.sample ≠ none ∧ t.sinkOk = true) →
        clipboardLoop pre_text (ticks ++ ⟨some s, false, true⟩ :: rest)
          = ((clipboardLoop pre_text ticks).1, Outcome.stopped))
    ∧ (∀ (s : MonState) (e : RawEvent) (ok : Bool), keyStep false s e ok = (s, none)) := by
  constructor
  · intro pre_text s ticks rest h
    revert h
    induction ticks generalizing pre_text with
    | nil => intro _; rfl
    | cons t ts ih =>
      intro h
      obtain ⟨ht, hts⟩ := List.forall_mem_cons.mp h
      obtain ⟨hr, hs, hf⟩ := ht
      cases hsample : t.sample with
      | none => exact absurd hsample hs
      | some cur =>
        by_cases hc : cur = pre_text
        · subst hc
          simp [clipboardLoop, hsample, hr, hf, ih cur hts]
        · simp [clipboardLoop, hsample, hr, hf, hc, ih cur hts]
  · intro s e ok
    rfl

/-- Witness for C5: a concrete stopped run — clean tick `"B"`, then a
stop tick, then a further distinct sample `"D"` that is never emitted. -/
theorem C5_stop_halts_loop_witness :
    clipboardLoop "A"
        [⟨some "B", true, true⟩, ⟨some "C", false, true⟩, ⟨some "D", true, true⟩]
      = ((clipboardLoop "A" [⟨some "B", true, true⟩]).1, Outcome.stopped) :=
  C5_stop_halts_loop.1 "A" "C" [⟨some "B", true, true⟩] [⟨some "D", true, true⟩]
    (by decide)

/-- Claim C6: the initial sample captured by `listen_to_clipboard` is
stored without emitting (a session whose schedule ends there emits
nothing); a tick whose sample equals the stored value emits nothing and
leaves the stored value unchanged; and a run of identical samples emits
zero events. -/
theorem C6_no_emission_without_change :
    (∀ v : String, clipboardSession (some v) [] = ([], Outcome.stillRunning))
    ∧ (∀ (pre_text : String) (rest : List ClipTick),
        clipboardLoop pre_text (⟨some pre_text, true, true⟩ :: rest)
          = (none :: (clipboardLoop pre_text rest).1, (clipboardLoop pre_text rest).2))
    ∧ (∀ (v : String) (n : Nat),
        clipboardLoop v (List.replicate n ⟨some v, true, true⟩)
          = (List.replicate n none, Outcome.stillRunning)) := by
  refine ⟨fun v => rfl, fun pre_text rest => ?_, fun v n => ?_⟩
  · simp [clipboardLoop]
  · induction n with
    | zero => rfl
    | succ k ih => simp [List.replicate, clipboardLoop, ih]

/-- Claim C7: in the key-displayer callback (monitoring on), a discrete
press/release event is always emitted and never touches the mouse-move
debounce clock, while a movement/drag event is emitted exactly when at
least 50 ms (the hard-coded `rate_limit`) have elapsed since the last
emitted continuous event (`last_mouse_move`, initially 0); on emission the
clock is set to the event's timestamp, and a suppressed event changes
nothing — so the first continuous event with a gap of at least 50 ms is
always emitted. -/
theorem C7_debounce_policy :
    ∀ (s : MonState) (e : RawEvent) (ok : Bool),
      (isDiscrete e = true →
        ((keyStep true s e ok).2.isSome = true
          ∧ (keyStep true s e ok).1.last_mouse_move = s.last_mouse_move))
      ∧ (isContinuous e = true →
          (((keyStep true s e ok).2.isSome = true ↔
              50 ≤ eventTimestamp e - s.last_mouse_move)
            ∧ (50 ≤ eventTimestamp e - s.last_mouse_move →
                (keyStep true s e ok).1.last_mouse_move = eventTimestamp e)
            ∧ (eventTimestamp e - s.last_mouse_move < 50 →
                keyStep true s e ok = (s, none)))) := by
  intro s e ok
  cases e with
  | KeyPressed k ts => exact ⟨fun _ => ⟨rfl, rfl⟩, fun h => nomatch h⟩
  | KeyReleased k ts => exact ⟨fun _ => ⟨rfl, rfl⟩, fun h => nomatch h⟩
  | MousePressed b x y ts => exact ⟨fun _ => ⟨rfl, rfl⟩, fun h => nomatch h⟩
  | MouseReleased b x y ts => exact ⟨fun _ => ⟨rfl, rfl⟩, fun h => nomatch h⟩
  | MouseMoved x y ts =>
    refine ⟨fun h => (nomatch h), fun _ => ?_⟩
    simp only [eventTimestamp]
    by_cases h50 : ts - s.last_mouse_move < 50
    · refine ⟨?_, fun hge => ?_, fun _ => ?_⟩
      · simp [keyStep, h50]
      · omega
      · simp [keyStep, h50]
    · refine ⟨?_, fun hge => ?_, fun hlt => ?_⟩
      · simp [keyStep, h50]
        omega
      · simp [keyStep, h50]
      · omega
  | MouseDragged x y ts =>
    refine ⟨fun h => (nomatch h), fun _ => ?_⟩
    simp only [eventTimestamp]
    by_cases h50 : ts - s.last_mouse_move < 50
    · refine ⟨?_, fun hge => ?_, fun _ => ?_⟩
      · simp [keyStep, h50]
      · omega
      · simp [keyStep, h50]
    · refine ⟨?_, fun hge => ?_, fun hlt => ?_⟩
      · simp [keyStep, h50]
        omega
      · simp [keyStep, h50]
      · omega
  | OtherEvent ts => exact ⟨fun h => (nomatch h), fun h => nomatch h⟩

/-- Witness for C7: the discrete event `A` pressed at 7 ms is emitted,
and the first mouse move at 60 ms (gap 60 ≥ 50 from the initial clock 0)
is emitted. -/
theorem C7_debounce_policy_witness :
    isDiscrete (RawEvent.KeyPressed MKey.KeyA 7) = true
    ∧ (keyStep true ⟨∅, 0⟩ (RawEvent.KeyPressed MKey.KeyA 7) true).2.isSome = true
    ∧ isContinuous (RawEvent.MouseMoved 3 4 60) = true
    ∧ (keyStep true ⟨∅, 0⟩ (RawEvent.MouseMoved 3 4 60) true).2.isSome = true := by
  refine ⟨rfl, ?_, rfl, ?_⟩
  · exact ((C7_debounce_policy ⟨∅, 0⟩ (RawEvent.KeyPressed MKey.KeyA 7) true).1 rfl).1
  · exact ((C7_debounce_policy ⟨∅, 0⟩ (RawEvent.MouseMoved 3 4 60) true).2 rfl).1.mpr
      (by decide)

/-- Claim C8, counterexample.  The claim says a failed hook registration
makes `start_monitoring` return the error synchronously with no thread
spawned; on the code, with the flag clear and registration failing, the
command returns `Ok` and spawns the thread anyway. -/
theorem C8_counterexample :
    (start_monitoring ⟨∅, false⟩ (some "accessibility permission denied")).ret
        = Except.ok ()
    ∧ (start_monitoring ⟨∅, false⟩ (some "accessibility permission denied")).spawned
        = true :=
  ⟨rfl, rfl⟩

/-- Claim C8, amended: when no session is running, `start_monitoring`
always returns `Ok` synchronously and spawns the monitoring thread
regardless of the hook-registration outcome; a registration failure `e`
surfaces only inside the thread as the error string built by
`run_input_monitoring`, which has already set `is_monitoring` to true. -/
theorem C8_hook_failure_logged_in_thread :
    (∀ (st : AppState) (hookErr : Option String), st.is_monitoring = false →
        (start_monitoring st hookErr).ret = Except.ok ()
        ∧ (start_monitoring st hookErr).spawned = true
        ∧ (start_monitoring st hookErr).threadResult
            = some (run_input_monitoring st hookErr).2)
    ∧ (∀ (st : AppState) (e : String),
        (run_input_monitoring st (some e)).2
            = Except.error ("Input hook error: " ++ e)
        ∧ (run_input_monitoring st (some e)).1.is_monitoring = true) := by
  refine ⟨fun st hookErr h => ?_, fun st e => ⟨rfl, rfl⟩⟩
  simp [start_monitoring, h]

/-- Witness for the amended C8 theorem with the flag clear and a failing
registration. -/
theorem C8_hook_failure_logged_in_thread_witness :
    (start_monitoring ⟨∅, false⟩ (some "denied")).ret = Except.ok ()
    ∧ (start_monitoring ⟨∅, false⟩ (some "denied")).spawned = true
    ∧ (start_monitoring ⟨∅, false⟩ (some "denied")).threadResult
        = some (run_input_monitoring ⟨∅, false⟩ (some "denied")).2 :=
  C8_hook_failure_logged_in_thread.1 ⟨∅, false⟩ (some "denied") rfl

/-- Claim C9: on the raw stream press A, press B, release A from the
empty set, the pressed-key set evolves through `{"A"}`, `{"A","B"}`,
`{"B"}`, and exactly three discrete events are emitted — keydown A,
keydown B, keyup A. -/
theorem C9_pressed_key_set_evolution :
    (runMonitor true ⟨∅, 0⟩ [RawEvent.KeyPressed MKey.KeyA 1]).1.pressed_keys = {"A"}
    ∧ (runMonitor true ⟨∅, 0⟩
        [RawEvent.KeyPressed MKey.KeyA 1,
         RawEvent.KeyPressed MKey.KeyB 2]).1.pressed_keys = {"A", "B"}
    ∧ (runMonitor true ⟨∅, 0⟩
        [RawEvent.KeyPressed MKey.KeyA 1, RawEvent.KeyPressed MKey.KeyB 2,
         RawEvent.KeyReleased MKey.KeyA 3]).1.pressed_keys = {"B"}
    ∧ (runMonitor true ⟨∅, 0⟩
        [RawEvent.KeyPressed MKey.KeyA 1, RawEvent.KeyPressed MKey.KeyB 2,
         RawEvent.KeyReleased MKey.KeyA 3]).2.map
          (fun ev => (ev.event_type, ev.key))
        = [("keydown", some "A"), ("keydown", some "B"), ("keyup", some "A")] := by
  exact ⟨by decide, by decide, by decide, by decide⟩

/-- Claim C10: `toggle_enabled` flips `is_enabled` and returns the new
value, toggling twice restores the original state, `get_enabled_status`
after a toggle agrees with the toggle's return value, and no other field
of `SelectionState` changes. -/
theorem C10_toggle_enabled_flip :
    ∀ s : SelectionState,
      (toggle_enabled s).2 = !s.is_enabled
      ∧ (toggle_enabled s).1.is_enabled = !s.is_enabled
      ∧ (toggle_enabled (toggle_enabled s).1).1 = s
      ∧ get_enabled_status (toggle_enabled s).1 = (toggle_enabled s).2
      ∧ (toggle_enabled s).1.is_dragging = s.is_dragging
      ∧ (toggle_enabled s).1.drag_start_x = s.drag_start_x
      ∧ (toggle_enabled s).1.drag_start_y = s.drag_start_y
      ∧ (toggle_enabled s).1.last_selected_text = s.last_selected_text := by
  intro s
  refine ⟨rfl, rfl, ?_, rfl, rfl, rfl, rfl, rfl⟩
  cases s
  simp [toggle_enabled]

end TauriDemo
